import Mathlib

/-!
Verification of the pg-mcp query core: a shallow embedding of the SQL
security validator (`src/services/sql_validator.py`), the retry policy
(`src/resilience/retry.py`) and the query orchestrator
(`src/services/orchestrator.py`), together with theorems settling the
frozen claims about them.

SQL statements are represented by the shape of the tree that the
`sqlglot` Postgres parser produces: the validator only inspects node
kinds, identifier names, the column's qualifying table text and the
presence of a direct WHERE argument, so the embedding records exactly
those.  Parsing itself (a third-party library) is taken as an input:
a `SqlInput` carries the raw text (used by the emptiness check) and the
parse outcome.
-/

deriving instance DecidableEq for Except

namespace PgMcp

/-- Node kinds of the sqlglot expression tree that the validator
distinguishes (`exp.Select`, `exp.Union`, ... in the source).  Kinds the
validator never names specially are carried by `other` with the sqlglot
class name, so that `type(statement).__name__` is still available. -/
inductive NodeKind where
  | select
  | union
  | intersect
  | exceptK
  | withK
  | subquery
  | command
  | insert
  | update
  | delete
  | drop
  | create
  | alter
  | grant
  | revoke
  | set
  | use
  | merge
  | column
  | table
  | func
  | whereK
  | other (className : String)
deriving DecidableEq, Repr

/-- A sqlglot expression node.  `name` is the node's `.name` text (the
identifier for columns/tables/functions, the command token for
`exp.Command`), `qualifier` is `column.table` for column nodes (the raw
text of the literal qualifier, `""` when absent) and the trailing raw
command text for `exp.Command`; `children` are the node's argument
subtrees in order.  For `exp.With` and `exp.Subquery` the `.this`
argument is the first child; a WHERE argument of a SELECT is a direct
child of kind `whereK`. -/
inductive Exp where
  | node (kind : NodeKind) (name : String) (qualifier : String) (children : List Exp)

namespace Exp

def kind : Exp → NodeKind
  | .node k _ _ _ => k

def name : Exp → String
  | .node _ n _ _ => n

def qualifier : Exp → String
  | .node _ _ q _ => q

def children : Exp → List Exp
  | .node _ _ _ cs => cs

/-- The `.this` argument: the first child (main query of a WITH, inner
query of a subquery). -/
def this : Exp → Option Exp
  | .node _ _ _ [] => none
  | .node _ _ _ (c :: _) => some c

/-- `select_stmt.args.get("where")` is truthy: the SELECT node has a
direct WHERE child. -/
def hasWhere (e : Exp) : Bool :=
  e.children.any (fun c => c.kind == NodeKind.whereK)

end Exp

mutual

/-- `expression.find_all(kind)`: every node of the given kind in the
subtree rooted at `e`, the node itself included, in prefix order. -/
def findAll (k : NodeKind) : Exp → List Exp
  | .node k' n q cs =>
    (if k' = k then [Exp.node k' n q cs] else []) ++ findAllList k cs

def findAllList (k : NodeKind) : List Exp → List Exp
  | [] => []
  | c :: cs => findAll k c ++ findAllList k cs

end

/-! ### Shell-style glob matching

`fnmatch.fnmatch` from the Python standard library (used for blocked
table patterns), on a case-normalised name: `*`, `?` and `[...]` /
`[!...]` character classes with ranges; an unterminated `[` is a
literal. -/

/-- Match a character against the body of a character class: `x-y`
ranges, otherwise literal members. -/
def classMatch : List Char → Char → Bool
  | [], _ => false
  | x :: '-' :: z :: rest, c => (decide (x ≤ c) && decide (c ≤ z)) || classMatch rest c
  | x :: rest, c => (x == c) || classMatch rest c

/-- Split a character class body at its closing `]`; `none` when the
class is unterminated. -/
def splitClassAux : List Char → Option (List Char × List Char)
  | [] => none
  | ']' :: rest => some ([], rest)
  | c :: rest => (splitClassAux rest).map (fun p => (c :: p.1, p.2))

/-- Like `splitClassAux`, but a `]` in first position is a literal
member of the class. -/
def splitClass (l : List Char) : Option (List Char × List Char) :=
  match l with
  | ']' :: rest => (splitClassAux rest).map (fun p => (']' :: p.1, p.2))
  | _ => splitClassAux l

/-- Shell-style glob match of pattern `p` against string `s`. -/
def globMatch : (p : List Char) → (s : List Char) → Bool
  | [], [] => true
  | [], _ :: _ => false
  | '*' :: p, s =>
    globMatch p s ||
      (match s with
       | [] => false
       | _ :: s' => globMatch ('*' :: p) s')
  | '?' :: p, s =>
    (match s with
     | [] => false
     | _ :: s' => globMatch p s')
  | '[' :: p, s =>
    let neg : Bool := match p with | '!' :: _ => true | _ => false
    let body : List Char := match p with | '!' :: p' => p' | _ => p
    (match splitClass body with
     | none =>
       (match s with
        | [] => false
        | c :: s' => (c == '[') && globMatch p s')
     | some clsRest =>
       (match s with
        | [] => false
        | c :: s' => (classMatch clsRest.1 c != neg) && globMatch clsRest.2 s'))
  | ch :: p, s =>
    (match s with
     | [] => false
     | c :: s' => (c == ch) && globMatch p s')
termination_by p s => (s.length, p.length)
decreasing_by
  all_goals simp_wf
  all_goals first
    | exact Prod.Lex.right _ (by omega)
    | exact Prod.Lex.left _ _ (by omega)

/-- `fnmatch.fnmatch(name, pattern)` on POSIX (where `normcase` is the
identity). -/
def fnmatch (name pattern : String) : Bool :=
  globMatch pattern.toList name.toList

/-! Kernel-reducible counterparts of Python's `str.lower`, `str.upper`
and `str.strip` (Lean's `String.toLower` etc. are defined through
`String.mapAux`, which the kernel cannot evaluate). -/

/-- `str.lower()`. -/
def toLowerStr (s : String) : String := ⟨s.data.map Char.toLower⟩

/-- `str.upper()`. -/
def toUpperStr (s : String) : String := ⟨s.data.map Char.toUpper⟩

/-- `str.strip()`. -/
def stripStr (s : String) : String :=
  ⟨((s.data.dropWhile Char.isWhitespace).reverse.dropWhile Char.isWhitespace).reverse⟩

/-! ### The SQL security validator (`src/services/sql_validator.py`) -/

/-- The security configuration fields that `SQLValidator.__init__`
reads (`pg_mcp.config.settings.SecurityConfig`). -/
structure SecurityConfig where
  blocked_functions : List String
  blocked_tables : List String
  blocked_columns : List (String × List String)
  allow_explain : Bool
  require_where_clause : List String
  max_join_tables : Nat

/-- `SQLValidator.BUILTIN_DANGEROUS_FUNCTIONS`. -/
def BUILTIN_DANGEROUS_FUNCTIONS : List String :=
  ["pg_sleep", "pg_terminate_backend", "pg_cancel_backend", "pg_reload_conf",
   "pg_rotate_logfile", "pg_read_file", "pg_read_binary_file", "pg_ls_dir",
   "pg_stat_file", "lo_import", "lo_export", "dblink", "dblink_exec",
   "dblink_connect", "dblink_open", "pg_write_file", "pg_execute_sql",
   "copy_from", "copy_to"]

/-- The state of an initialised `SQLValidator` (its instance
attributes after `__init__`). -/
structure SQLValidator where
  blocked_table_patterns : List String
  blocked_columns_map : List (String × List String)
  blocked_columns_simple : List String
  allow_explain : Bool
  require_where_clause : List String
  max_join_tables : Nat
  blocked_functions : List String

/-- `SQLValidator.__init__`: the legacy `blocked_tables` /
`blocked_columns` constructor parameters (empty list standing for the
falsy `None` / `[]`) override the config where non-empty, table
patterns and legacy columns are lowercased, and the configured blocked
functions are lowercased and unioned with the built-in set. -/
def SQLValidator.init (config : SecurityConfig) (blocked_tables : List String)
    (blocked_columns : List String) (allow_explain : Bool) : SQLValidator :=
  { blocked_table_patterns :=
      (if blocked_tables = [] then config.blocked_tables else blocked_tables).map
        toLowerStr,
    blocked_columns_map := config.blocked_columns,
    blocked_columns_simple := blocked_columns.map toLowerStr,
    allow_explain := if allow_explain = false then config.allow_explain else allow_explain,
    require_where_clause := config.require_where_clause.map toLowerStr,
    max_join_tables := config.max_join_tables,
    blocked_functions :=
      BUILTIN_DANGEROUS_FUNCTIONS ++ config.blocked_functions.map toLowerStr }

/-- `FORBIDDEN_STATEMENT_TYPES` membership, returning
`type.__name__.upper()` for the matching forbidden class. -/
def forbidden_statement_name : NodeKind → Option String
  | .insert => some "INSERT"
  | .update => some "UPDATE"
  | .delete => some "DELETE"
  | .drop => some "DROP"
  | .create => some "CREATE"
  | .alter => some "ALTER"
  | .grant => some "GRANT"
  | .revoke => some "REVOKE"
  | .set => some "SET"
  | .command => some "COMMAND"
  | .use => some "USE"
  | .merge => some "MERGE"
  | _ => none

/-- `isinstance(statement, tuple(ALLOWED_STATEMENT_TYPES))`:
SELECT or a set operation. -/
def allowed_statement_type (k : NodeKind) : Bool :=
  k == .select || k == .union || k == .intersect || k == .exceptK

/-- `type(statement).__name__` for the kinds the embedding names. -/
def node_type_name : NodeKind → String
  | .select => "Select"
  | .union => "Union"
  | .intersect => "Intersect"
  | .exceptK => "Except"
  | .withK => "With"
  | .subquery => "Subquery"
  | .command => "Command"
  | .insert => "Insert"
  | .update => "Update"
  | .delete => "Delete"
  | .drop => "Drop"
  | .create => "Create"
  | .alter => "Alter"
  | .grant => "Grant"
  | .revoke => "Revoke"
  | .set => "Set"
  | .use => "Use"
  | .merge => "Merge"
  | .column => "Column"
  | .table => "Table"
  | .func => "Func"
  | .whereK => "Where"
  | .other className => className

/-- `SQLValidator._check_statement_type`. -/
def check_statement_type (statement : Exp) : Option String :=
  match forbidden_statement_name statement.kind with
  | some stmt_name =>
    some (stmt_name ++ " statements are not allowed. Only SELECT queries are permitted.")
  | none =>
    if allowed_statement_type statement.kind then none
    else
      some ("Statement type " ++ node_type_name statement.kind ++
        " is not allowed. Only SELECT queries are permitted.")

/-- `SQLValidator._check_dangerous_functions`. -/
def check_dangerous_functions (v : SQLValidator) (statement : Exp) : Option String :=
  (findAll .func statement).findSome? fun f =>
    let func_name := f.name |> toLowerStr
    if func_name ∈ v.blocked_functions then
      some ("Function \x27" ++ func_name ++ "\x27 is blocked for security reasons")
    else none

/-- `SQLValidator._check_blocked_tables`. -/
def check_blocked_tables (v : SQLValidator) (statement : Exp) : Option String :=
  if v.blocked_table_patterns = [] then none
  else
    (findAll .table statement).findSome? fun t =>
      let table_name := t.name |> toLowerStr
      v.blocked_table_patterns.findSome? fun pattern =>
        if fnmatch table_name pattern then
          some ("Access to table \x27" ++ table_name ++
            "\x27 is not allowed (matches pattern \x27" ++ pattern ++ "\x27)")
        else none

/-- `SQLValidator._check_blocked_columns`: the legacy global list is
checked on the lowercased column name; the per-table map is consulted
with the lowercased literal qualifier text (`column.table`) when one is
present. -/
def check_blocked_columns (v : SQLValidator) (statement : Exp) : Option String :=
  if v.blocked_columns_map = [] ∧ v.blocked_columns_simple = [] then none
  else
    (findAll .column statement).findSome? fun col =>
      let column_name := col.name |> toLowerStr
      if column_name ∈ v.blocked_columns_simple then
        some ("Access to column \x27" ++ column_name ++ "\x27 is not allowed")
      else if col.qualifier ≠ "" then
        let table_name := col.qualifier |> toLowerStr
        match v.blocked_columns_map.lookup table_name with
        | some cols =>
          if column_name ∈ cols.map toLowerStr then
            some ("Access to column \x27" ++ table_name ++ "." ++ column_name ++
              "\x27 is not allowed")
          else none
        | none => none
      else none

/-- `SQLValidator._check_subquery_safety`. -/
def check_subquery_safety (statement : Exp) : Option String :=
  (findAll .subquery statement).findSome? fun sq =>
    match sq.this with
    | none => none
    | some inner_stmt =>
      match forbidden_statement_name inner_stmt.kind with
      | some stmt_name => some (stmt_name ++ " statements in subqueries are not allowed")
      | none =>
        if inner_stmt.kind = .select ∨ inner_stmt.kind = .withK then none
        else some "Subqueries must contain only SELECT statements"

/-- The lowercased names of the tables referenced anywhere in the
subtree of one SELECT (`select_stmt.find_all(exp.Table)` with falsy
names skipped). -/
def select_table_names (select_stmt : Exp) : List String :=
  (findAll .table select_stmt).filterMap fun t =>
    if t.name ≠ "" then some (toLowerStr t.name) else none

/-- `SQLValidator._check_where_clause_requirement`. -/
def check_where_clause_requirement (v : SQLValidator) (statement : Exp) : Option String :=
  if v.require_where_clause = [] then none
  else
    (findAll .select statement).findSome? fun select_stmt =>
      let tables_in_select := select_table_names select_stmt
      v.require_where_clause.findSome? fun required_table =>
        if required_table ∈ tables_in_select ∧ ¬ select_stmt.hasWhere then
          some ("Table \x27" ++ required_table ++
            "\x27 requires a WHERE clause in SELECT queries")
        else none

/-- `SQLValidator._check_join_limit`: for every SELECT in the tree, the
distinct lowercased table names in its whole subtree are counted
against `max_join_tables`. -/
def check_join_limit (v : SQLValidator) (statement : Exp) : Option String :=
  (findAll .select statement).findSome? fun select_stmt =>
    let tables := (select_table_names select_stmt).dedup
    if tables.length > v.max_join_tables then
      some ("Query joins " ++ toString tables.length ++
        " tables, which exceeds the maximum allowed limit of " ++
        toString v.max_join_tables ++ " tables")
    else none

/-- The two exception classes `validate_or_raise` can raise. -/
inductive VError where
  | parseErr (msg : String)
  | securityErr (msg : String)
deriving DecidableEq, Repr

/-- `str(e)`: the exception's message. -/
def VError.msg : VError → String
  | .parseErr m => m
  | .securityErr m => m

/-- The input to validation: the raw SQL text (inspected only by the
emptiness check) and the outcome of `sqlglot.parse(sql, read="postgres")`
on it — a parse failure message or the list of parsed statements, where
a comment-only statement parses to `none`. -/
structure SqlInput where
  text : String
  parse : Except String (List (Option Exp))

/-- The `if error := self._check_...(): raise SecurityViolationError(error)`
chaining in `validate_or_raise`. -/
def andThen (check : Option String) (rest : Except VError Unit) : Except VError Unit :=
  match check with
  | some msg => .error (.securityErr msg)
  | none => rest

/-- The per-statement part of `SQLValidator.validate_or_raise`: EXPLAIN
handling, CTE unwrapping and the security-check chain, in source
order. -/
def validate_statement (v : SQLValidator) (statement : Exp) : Except VError Unit :=
  if statement.kind = NodeKind.command then
    let cmd_name := toUpperStr statement.name
    if cmd_name = "EXPLAIN" then
      if v.allow_explain = false then
        .error (.securityErr "EXPLAIN statements are not allowed")
      else .ok ()
    else
      .error (.securityErr ("Command \x27" ++ cmd_name ++
        "\x27 is not allowed. Only SELECT queries are permitted."))
  else
    match (if statement.kind = NodeKind.withK then statement.this else some statement) with
    | none => .error (.parseErr "WITH statement has no main query")
    | some main_query =>
      andThen (check_statement_type main_query)
        (andThen (check_dangerous_functions v statement)
          (andThen (check_blocked_tables v statement)
            (andThen (check_blocked_columns v statement)
              (andThen (check_subquery_safety statement)
                (andThen (check_where_clause_requirement v statement)
                  (andThen (check_join_limit v statement) (.ok ())))))))

/-- `SQLValidator.validate_or_raise`. -/
def validate_or_raise (v : SQLValidator) (sql : SqlInput) : Except VError Unit :=
  if stripStr sql.text = "" then .error (.parseErr "SQL query cannot be empty")
  else
    match sql.parse with
    | .error e => .error (.parseErr ("Failed to parse SQL: " ++ e))
    | .ok parsed =>
      if parsed.length > 1 then
        .error (.securityErr
          "Multiple statements not allowed. Only single SELECT queries are permitted.")
      else
        match parsed with
        | [] => .error (.parseErr "No valid SQL statement found")
        | stmt? :: _ =>
          match stmt? with
          | none => .error (.parseErr "No valid SQL statement found")
          | some statement => validate_statement v statement

/-- `SQLValidator.validate`: wraps `validate_or_raise`, catching the two
declared exception classes and returning `(is_valid, error_message)`. -/
def validate (v : SQLValidator) (sql : SqlInput) : Bool × Option String :=
  match validate_or_raise v sql with
  | .ok _ => (true, none)
  | .error e => (false, some e.msg)

/-! ### The retry policy (`src/resilience/retry.py`)

Delays are real-valued in the source (`float` seconds); the embedding
uses exact rationals, on which `min(initial_delay * backoff_factor **
attempt, max_delay)` is the same algebraic expression. -/

/-- A raised exception: its class name and message. -/
structure Exc where
  cls : String
  msg : String
deriving DecidableEq, Repr

/-- A validated `RetryConfig` (the attributes set at the end of
`RetryConfig.__init__`). -/
structure RetryConfig where
  max_attempts : Nat
  initial_delay : ℚ
  backoff_factor : ℚ
  max_delay : ℚ
  retriable_exceptions : List String

/-- `RetryConfig.__init__`: parameter validation in source order,
raising `ValueError` on invalid input. -/
def RetryConfig.init (max_attempts : Int) (initial_delay backoff_factor max_delay : ℚ)
    (retriable_exceptions : List String) : Except String RetryConfig :=
  if max_attempts < 1 then .error "max_attempts must be >= 1"
  else if initial_delay < 0 then .error "initial_delay must be >= 0"
  else if backoff_factor < 1 then .error "backoff_factor must be >= 1.0"
  else if max_delay < initial_delay then .error "max_delay must be >= initial_delay"
  else .ok ⟨max_attempts.toNat, initial_delay, backoff_factor, max_delay,
    retriable_exceptions⟩

/-- `RetryConfig.calculate_delay`:
`min(initial_delay * (backoff_factor ** attempt), max_delay)`. -/
def RetryConfig.calculate_delay (config : RetryConfig) (attempt : Nat) : ℚ :=
  min (config.initial_delay * config.backoff_factor ^ attempt) config.max_delay

/-- Outcome of a `with_retry`-wrapped call: a result, a propagated
exception, or `RetryExhaustedError(attempts, last_error)` (whose cause,
chained with `from e`, is the same `last_error`). -/
inductive RetryResult (α : Type) where
  | ok (value : α)
  | raised (e : Exc)
  | exhausted (attempts : Nat) (last_error : Exc)
deriving DecidableEq, Repr

/-- Full account of one run of the wrapper: the outcome, how many times
the wrapped operation was invoked, and the backoff sleeps performed. -/
structure RunResult (α : Type) where
  result : RetryResult α
  attempts : Nat
  delays : List ℚ
deriving DecidableEq, Repr

/-- The `for attempt in range(config.max_attempts)` loop of the
`with_retry` wrapper, recursing over the list of remaining loop indices
(the wrapper passes `range(max_attempts)`, see `with_retry`).  The
operation is a deterministic schedule `f` of per-invocation outcomes.
The source's `is_last_attempt = (attempt == config.max_attempts - 1)`
holds on a `range` schedule exactly when no indices remain, which is how
it is rendered here.  A retriable exception on the last attempt raises
`RetryExhausted(attempts=config.max_attempts, last_error=e)` chained
`from e`; a non-retriable exception is not caught by
`except config.retriable_exceptions` and propagates; falling out of the
loop (only possible when `max_attempts = 0`) raises the final
`RuntimeError`. -/
def retryLoop (config : RetryConfig) (f : Nat → Except Exc α) :
    List Nat → RunResult α
  | [] => ⟨.raised ⟨"RuntimeError", "Unexpected retry loop exit"⟩, 0, []⟩
  | attempt :: rest =>
    match f attempt with
    | .ok result => ⟨.ok result, 1, []⟩
    | .error e =>
      if e.cls ∈ config.retriable_exceptions then
        if rest = [] then
          ⟨.exhausted config.max_attempts e, 1, []⟩
        else
          let delay := config.calculate_delay attempt
          let r := retryLoop config f rest
          ⟨r.result, r.attempts + 1, delay :: r.delays⟩
      else ⟨.raised e, 1, []⟩

/-- `with_retry(config)` applied to an operation with outcome schedule
`f`. -/
def with_retry (config : RetryConfig) (f : Nat → Except Exc α) : RunResult α :=
  retryLoop config f (List.range config.max_attempts)

/-! ### The query orchestrator (`src/services/orchestrator.py`)

`QueryOrchestrator.execute_query` is embedded as a function of the
request and of an environment that fixes the outcome of every
collaborator call (database registry, schema cache and loader, the
generate-and-validate loop, the resilient executor and the result
validator).  The value-level details of error objects come from
`pg_mcp.models.errors`, which is not part of the sources; its error
codes are modelled from the spec (§7 error taxonomy). -/

/-- A value in an error's free-form `details` map. -/
inductive DetVal where
  | s (value : String)
  | l (value : List String)
  | n (value : Nat)
deriving DecidableEq, Repr

/-- Modelled from the spec: the `PgMcpError` hierarchy of
`pg_mcp.models.errors` (absent from the sources) as observed by
`execute_query`: a stable error code from the closed §7 taxonomy
(`e.code.value`), a message and a details map. -/
structure PgErr where
  code : String
  message : String
  details : List (String × DetVal)
deriving DecidableEq, Repr

/-- An exception escaping a pipeline step: a known application error
(`except PgMcpError`) or an unexpected one (`except Exception`),
carried with its type name and message. -/
inductive OrchErr where
  | pg (e : PgErr)
  | unexpected (errorType : String) (msg : String)
deriving DecidableEq, Repr

/-- `ErrorDetail` of `pg_mcp.models.query`. -/
structure ErrorDetail where
  code : String
  message : String
  details : List (String × DetVal)
deriving DecidableEq, Repr

/-- `ValidationResult` of `pg_mcp.models.query`. -/
structure ValidationResult where
  is_valid : Bool
  is_select : Bool
  allows_data_modification : Bool
  uses_blocked_functions : List String
  error_message : Option String
deriving DecidableEq, Repr

/-- A result row: column name to rendered value. -/
def Row := List (String × String)
deriving DecidableEq, Repr

/-- `QueryResult` of `pg_mcp.models.query`. -/
structure QueryResult where
  columns : List String
  rows : List Row
  row_count : Nat
  execution_time_ms : Nat
deriving DecidableEq, Repr

/-- `QueryResponse` of `pg_mcp.models.query` (field list as used by the
`QueryResponse(...)` constructions in `execute_query`). -/
structure QueryResponse where
  success : Bool
  generated_sql : Option String
  validation : Option ValidationResult
  data : Option QueryResult
  error : Option ErrorDetail
  confidence : Nat
  tokens_used : Option Nat
deriving DecidableEq, Repr

/-- `ReturnType` of `pg_mcp.models.query`: SQL_ONLY or RESULT. -/
inductive ReturnType where
  | sql
  | result
deriving DecidableEq, Repr

/-- `QueryRequest`. -/
structure QueryRequest where
  question : String
  database : Option String
  return_type : ReturnType

/-- The environment of one `execute_query` call: configuration read by
the orchestrator and the outcome of each collaborator step.
`pools` is the ordered key list of the pool registry; `gen_result` is
the outcome of `_generate_sql_with_retry` (which returns the generated
SQL — its `tokens_used` is never assigned and stays `None`);
`exec_result` is the outcome of `_execute_with_resilience`;
`validator_result` is the result-validator call outcome inside
`_validate_results_safely`. -/
structure OrchEnv where
  pools : List String
  max_question_length : Nat
  min_confidence_score : Nat
  validation_enabled : Bool
  schema_cached : String → Bool
  schema_load : String → Except String Unit
  gen_result : Except OrchErr String
  exec_result : Except OrchErr (List Row × Nat)
  validator_result : Except String Nat
  execution_time_ms : Nat

/-- `QueryOrchestrator._resolve_database`.  Modelled from the spec: the
`DatabaseError` raised here carries the `DATABASE_NOT_FOUND` code
("named database not registered, or ambiguous selection", §7). -/
def resolve_database (pools : List String) (database : Option String) :
    Except PgErr String :=
  match database with
  | some db =>
    if db ∈ pools then .ok db
    else
      .error ⟨"DATABASE_NOT_FOUND", "Database \x27" ++ db ++ "\x27 not found",
        [("requested_database", .s db), ("available_databases", .l pools)]⟩
  | none =>
    match pools with
    | [] => .error ⟨"DATABASE_NOT_FOUND", "No databases configured", []⟩
    | [db] => .ok db
    | _ =>
      .error ⟨"DATABASE_NOT_FOUND",
        "Multiple databases available, please specify which to query",
        [("available_databases", .l pools)]⟩

/-- Step 2 of `execute_query`: schema from cache, else load via the
pool, wrapping load failures.  Modelled from the spec: `DatabaseError`
on a missing pool carries `DATABASE_ERROR` and a load failure carries
`SCHEMA_LOAD_ERROR` (§7). -/
def get_schema (env : OrchEnv) (database_name : String) : Except OrchErr Unit :=
  if env.schema_cached database_name then .ok ()
  else if database_name ∈ env.pools then
    match env.schema_load database_name with
    | .ok _ => .ok ()
    | .error e =>
      .error (.pg ⟨"SCHEMA_LOAD_ERROR",
        "Failed to load schema for database \x27" ++ database_name ++ "\x27: " ++ e,
        [("database", .s database_name), ("error", .s e)]⟩)
  else
    .error (.pg ⟨"DATABASE_ERROR",
      "No connection pool available for database \x27" ++ database_name ++ "\x27",
      [("database", .s database_name)]⟩)

/-- `QueryOrchestrator._validate_results_safely`: 100 when validation is
disabled or the validator call fails, else the validator's
confidence. -/
def validate_results_safely (env : OrchEnv) : Nat :=
  if env.validation_enabled = false then 100
  else
    match env.validator_result with
    | .ok confidence => confidence
    | .error _ => 100

/-- The early `QUESTION_TOO_LONG` return of `execute_query`. -/
def question_too_long_response (env : OrchEnv) (req : QueryRequest) : QueryResponse :=
  { success := false, generated_sql := none, validation := none, data := none,
    error := some ⟨"QUESTION_TOO_LONG",
      "Question exceeds maximum length of " ++ toString env.max_question_length ++
        " characters",
      [("question_length", .n req.question.length),
       ("max_length", .n env.max_question_length)]⟩,
    confidence := 0, tokens_used := none }

/-- The `ValidationResult` built on generate-and-validate success. -/
def successful_validation_result : ValidationResult :=
  ⟨true, true, false, [], none⟩

/-- The SQL_ONLY early-success return of `execute_query`. -/
def sql_only_response (generated_sql : String) : QueryResponse :=
  { success := true, generated_sql := some generated_sql,
    validation := some successful_validation_result, data := none, error := none,
    confidence := 100, tokens_used := none }

/-- The `LOW_CONFIDENCE` failure return of `execute_query`. -/
def low_confidence_response (env : OrchEnv) (generated_sql : String)
    (result_confidence : Nat) : QueryResponse :=
  { success := false, generated_sql := some generated_sql,
    validation := some successful_validation_result, data := none,
    error := some ⟨"LOW_CONFIDENCE",
      "Result confidence " ++ toString result_confidence ++
        "% is below the required threshold of " ++
        toString env.min_confidence_score ++ "%",
      [("confidence", .n result_confidence),
       ("threshold", .n env.min_confidence_score)]⟩,
    confidence := result_confidence, tokens_used := none }

/-- The final success return of `execute_query` (step 7). -/
def full_success_response (env : OrchEnv) (generated_sql : String) (results : List Row)
    (result_confidence : Nat) : QueryResponse :=
  { success := true, generated_sql := some generated_sql,
    validation := some successful_validation_result,
    data := some ⟨(results.head?.map (fun r => r.map Prod.fst)).getD [], results,
      results.length, env.execution_time_ms⟩,
    error := none, confidence := result_confidence, tokens_used := none }

/-- The `try:` body of `QueryOrchestrator.execute_query`: the pipeline
steps in source order, an `.ok` being a structural return and an
`.error` an exception reaching the handlers. -/
def execute_query_body (env : OrchEnv) (req : QueryRequest) :
    Except OrchErr QueryResponse :=
  if req.question.length > env.max_question_length then
    .ok (question_too_long_response env req)
  else
    match resolve_database env.pools req.database with
    | .error e => .error (.pg e)
    | .ok database_name =>
      match get_schema env database_name with
      | .error e => .error e
      | .ok _ =>
        match env.gen_result with
        | .error e => .error e
        | .ok generated_sql =>
          if req.return_type = ReturnType.sql then
            .ok (sql_only_response generated_sql)
          else
            match env.exec_result with
            | .error e => .error e
            | .ok (results, _total_count) =>
              let result_confidence := validate_results_safely env
              if result_confidence < env.min_confidence_score then
                .ok (low_confidence_response env generated_sql result_confidence)
              else
                .ok (full_success_response env generated_sql results result_confidence)

/-- `QueryOrchestrator.execute_query`: the body plus its two exception
handlers (`except PgMcpError` and the catch-all `except Exception`,
which answers with `INTERNAL_ERROR`). -/
def execute_query (env : OrchEnv) (req : QueryRequest) : QueryResponse :=
  match execute_query_body env req with
  | .ok response => response
  | .error (.pg e) =>
    { success := false, generated_sql := none, validation := none, data := none,
      error := some ⟨e.code, e.message, e.details⟩, confidence := 0,
      tokens_used := none }
  | .error (.unexpected errorType msg) =>
    { success := false, generated_sql := none, validation := none, data := none,
      error := some ⟨"INTERNAL_ERROR", "Internal server error: " ++ msg,
        [("error_type", .s errorType)]⟩,
      confidence := 0, tokens_used := none }

/-! ### Helper lemmas -/

theorem andThen_ok {check : Option String} {rest : Except VError Unit} :
    andThen check rest = .ok () ↔ check = none ∧ rest = .ok () := by
  cases check <;> simp [andThen]

/-- An accepted non-Command statement passed every security check. -/
theorem validate_statement_ok_checks (v : SQLValidator) (st : Exp)
    (hk : st.kind ≠ NodeKind.command)
    (h : validate_statement v st = .ok ()) :
    ∃ main_query,
      (if st.kind = NodeKind.withK then st.this else some st) = some main_query ∧
      check_statement_type main_query = none ∧
      check_dangerous_functions v st = none ∧
      check_blocked_tables v st = none ∧
      check_blocked_columns v st = none ∧
      check_subquery_safety st = none ∧
      check_where_clause_requirement v st = none ∧
      check_join_limit v st = none := by
  unfold validate_statement at h
  rw [if_neg hk] at h
  rcases hm : (if st.kind = NodeKind.withK then st.this else some st) with _ | main
  · rw [hm] at h
    exact absurd h (by simp)
  · rw [hm] at h
    simp only [andThen_ok] at h
    exact ⟨main, rfl, h.1, h.2.1, h.2.2.1, h.2.2.2.1, h.2.2.2.2.1, h.2.2.2.2.2.1,
      h.2.2.2.2.2.2.1⟩

/-- Acceptance of a single-statement input comes down to
`validate_statement` accepting the statement. -/
theorem validate_or_raise_ok_stmt (v : SQLValidator) (s : SqlInput) (stmt : Exp)
    (hp : s.parse = .ok [some stmt])
    (h : validate_or_raise v s = .ok ()) : validate_statement v stmt = .ok () := by
  unfold validate_or_raise at h
  rw [hp] at h
  by_cases ht : stripStr s.text = ""
  · rw [if_pos ht] at h
    exact absurd h (by simp)
  · rw [if_neg ht] at h
    simpa using h

/-! ### Claims about the SQL validator -/

/-- Configuration of the C1 scenario: `blocked_columns = {"users":
["password"]}`, everything else permissive. -/
def c1_validator : SQLValidator :=
  SQLValidator.init ⟨[], [], [("users", ["password"])], false, [], 3⟩ [] [] false

/-- The sqlglot parse of `SELECT u.password FROM users u`: the column's
qualifier is the literal alias text `u`; the table node's name is
`users` (its alias is a separate argument the validator never reads). -/
def c1_aliased_ast : Exp :=
  .node .select "" ""
    [.node .column "password" "u" [], .node .table "users" "" []]

def c1_aliased_input : SqlInput :=
  ⟨"SELECT u.password FROM users u", .ok [some c1_aliased_ast]⟩

/-- The sqlglot parse of `SELECT users.password FROM users`: the
qualifier is the table name itself. -/
def c1_qualified_ast : Exp :=
  .node .select "" ""
    [.node .column "password" "users" [], .node .table "users" "" []]

def c1_qualified_input : SqlInput :=
  ⟨"SELECT users.password FROM users", .ok [some c1_qualified_ast]⟩

/-- C1, counterexample: with blocked_columns = {"users": ["password"]},
validating `SELECT u.password FROM users u` does NOT raise — the
per-table check compares the blocked map against the column's literal
qualifier text `u`, which is the alias, so the reference is accepted,
contrary to the claim that it raises a SECURITY_VIOLATION citing
users.password. -/
theorem c1_alias_not_blocked_counterexample :
    validate_or_raise c1_validator c1_aliased_input = .ok () := by decide

/-- C1, amended: the per-table blocked-columns check fires exactly on
the column's literal qualifying table text.  `SELECT users.password
FROM users` is rejected with a SECURITY_VIOLATION citing
`users.password`, while the alias-qualified `SELECT u.password FROM
users u` is accepted because the alias `u` is not resolved to
`users`. -/
theorem c1_blocked_column_literal_qualifier :
    validate_or_raise c1_validator c1_qualified_input =
      .error (.securityErr "Access to column \x27users.password\x27 is not allowed") ∧
    validate_or_raise c1_validator c1_aliased_input = .ok () := by decide

/-- A validator with an empty policy: nothing blocked, EXPLAIN not
allowed, `max_join_tables = 3`. -/
def default_validator : SQLValidator :=
  SQLValidator.init ⟨[], [], [], false, [], 3⟩ [] [] false

/-- A statement whose `check_statement_type` passes necessarily has an
allowed kind. -/
theorem check_statement_type_none_allowed {e : Exp}
    (h : check_statement_type e = none) : allowed_statement_type e.kind = true := by
  unfold check_statement_type at h
  rcases hf : forbidden_statement_name e.kind with _ | nm
  · rw [hf] at h
    by_cases ha : allowed_statement_type e.kind
    · exact ha
    · rw [if_neg ha] at h
      exact absurd h (by simp)
  · rw [hf] at h
    exact absurd h (by simp)

/-- The sqlglot parse of `(SELECT 1)` as a whole statement: a top-level
`exp.Subquery` wrapping a SELECT. -/
def c2_subquery_ast : Exp := .node .subquery "" "" [.node .select "" "" []]

def c2_subquery_input : SqlInput := ⟨"(SELECT 1)", .ok [some c2_subquery_ast]⟩

/-- C2, counterexample: a top-level subquery wrapping a SELECT IS
rejected on statement-kind grounds.  `_check_statement_type` tests
membership in `ALLOWED_STATEMENT_TYPES` = {Select, Union, Intersect,
Except}; the `ALLOWED_TOP_LEVEL` constant that additionally lists
`Subquery` is never consulted. -/
theorem c2_subquery_rejected_counterexample :
    validate_or_raise default_validator c2_subquery_input =
      .error (.securityErr
        "Statement type Subquery is not allowed. Only SELECT queries are permitted.") := by
  decide

/-- C2, amended: every accepted single-statement input is a SELECT /
UNION / INTERSECT / EXCEPT, a WITH whose body is one of those, or an
EXPLAIN command when `allow_explain` is set — with top-level subqueries
excluded; conversely each of SELECT, UNION, INTERSECT and EXCEPT passes
the statement-kind check (also as the body of a WITH, to which the check
is applied after unwrapping), while a top-level Subquery node always
fails it. -/
theorem c2_statement_kind_gate :
    (∀ (v : SQLValidator) (s : SqlInput) (stmt : Exp),
      s.parse = .ok [some stmt] → validate_or_raise v s = .ok () →
      (stmt.kind = NodeKind.command ∧ toUpperStr stmt.name = "EXPLAIN" ∧
        v.allow_explain = true) ∨
      allowed_statement_type stmt.kind = true ∨
      (stmt.kind = NodeKind.withK ∧
        ∃ m, stmt.this = some m ∧ allowed_statement_type m.kind = true)) ∧
    (∀ stmt : Exp, allowed_statement_type stmt.kind = true →
      check_statement_type stmt = none) ∧
    (∀ stmt : Exp, stmt.kind = NodeKind.subquery →
      check_statement_type stmt = some
        "Statement type Subquery is not allowed. Only SELECT queries are permitted.") := by
  refine ⟨?_, ?_, ?_⟩
  · intro v s stmt hp h
    have hvs := validate_or_raise_ok_stmt v s stmt hp h
    by_cases hc : stmt.kind = NodeKind.command
    · left
      unfold validate_statement at hvs
      rw [if_pos hc] at hvs
      by_cases he : toUpperStr stmt.name = "EXPLAIN"
      · refine ⟨hc, he, ?_⟩
        rw [if_pos he] at hvs
        by_cases ha : v.allow_explain = false
        · rw [if_pos ha] at hvs
          exact absurd hvs (by simp)
        · simpa using ha
      · rw [if_neg he] at hvs
        exact absurd hvs (by simp)
    · obtain ⟨main, hm, hcst, -⟩ := validate_statement_ok_checks v stmt hc hvs
      have hallow := check_statement_type_none_allowed hcst
      by_cases hw : stmt.kind = NodeKind.withK
      · rw [if_pos hw] at hm
        exact .inr (.inr ⟨hw, main, hm, hallow⟩)
      · rw [if_neg hw] at hm
        cases hm
        exact .inr (.inl hallow)
  · intro stmt h
    rcases stmt with ⟨k, n, q, cs⟩
    cases k <;>
      simp_all [allowed_statement_type, check_statement_type,
        forbidden_statement_name, Exp.kind]
  · intro stmt h
    rcases stmt with ⟨k, n, q, cs⟩
    simp only [Exp.kind] at h
    subst h
    simp [check_statement_type, forbidden_statement_name, allowed_statement_type,
      node_type_name, Exp.kind]

/-- The sqlglot parse shape of `SELECT x FROM a`. -/
def simple_select_ast : Exp :=
  .node .select "" "" [.node .column "x" "" [], .node .table "a" "" []]

/-- A WITH statement whose main query is `simple_select_ast`. -/
def with_select_ast : Exp := .node .withK "" "" [simple_select_ast]

def with_select_input : SqlInput :=
  ⟨"WITH t AS (SELECT 1) SELECT x FROM a", .ok [some with_select_ast]⟩

/-- Witness for C2: the forward direction applied to a concrete
accepted WITH-wrapped SELECT. -/
theorem c2_statement_kind_gate_witness :
    (with_select_ast.kind = NodeKind.command ∧
      toUpperStr with_select_ast.name = "EXPLAIN" ∧
      default_validator.allow_explain = true) ∨
    allowed_statement_type with_select_ast.kind = true ∨
    (with_select_ast.kind = NodeKind.withK ∧
      ∃ m, with_select_ast.this = some m ∧ allowed_statement_type m.kind = true) :=
  c2_statement_kind_gate.1 default_validator with_select_input with_select_ast rfl
    (by decide)

/-- The sqlglot parse shape of
`SELECT x FROM a WHERE x IN (SELECT y FROM b, c, d)`: the outer SELECT
references one table directly, the nested SELECT three. -/
def c4_nested_ast : Exp :=
  .node .select "" ""
    [.node .column "x" "" [], .node .table "a" "" [],
     .node .whereK "" ""
       [.node (.other "In") "" ""
         [.node .column "x" "" [],
          .node .subquery "" ""
            [.node .select "" ""
              [.node .column "y" "" [], .node .table "b" "" [],
               .node .table "c" "" [], .node .table "d" "" []]]]]]

def c4_nested_input : SqlInput :=
  ⟨"SELECT x FROM a WHERE x IN (SELECT y FROM b, c, d)", .ok [some c4_nested_ast]⟩

/-- C4, counterexample: with `max_join_tables = 3`, a query whose outer
SELECT references only one table directly IS rejected, because
`select_stmt.find_all(exp.Table)` recurses into nested subqueries and
attributes their tables (b, c, d) to the outer SELECT as well — contrary
to the claim that tables referenced only inside nested subqueries do not
push the enclosing SELECT over the cap. -/
theorem c4_nested_tables_counted_counterexample :
    validate_or_raise default_validator c4_nested_input =
      .error (.securityErr
        "Query joins 4 tables, which exceeds the maximum allowed limit of 3 tables") := by
  decide

/-- C4, amended: a query is accepted only if for every SELECT in it the
distinct tables referenced anywhere in that SELECT's subtree (its nested
subqueries included) number at most `max_join_tables`; and the join
check rejects exactly when some SELECT's subtree exceeds the cap. -/
theorem c4_join_limit_counts_subtree_tables (v : SQLValidator) (s : SqlInput)
    (stmt : Exp) (hp : s.parse = .ok [some stmt]) :
    (validate_or_raise v s = .ok () → stmt.kind ≠ NodeKind.command →
      ∀ sel ∈ findAll .select stmt,
        (select_table_names sel).dedup.length ≤ v.max_join_tables) ∧
    (check_join_limit v stmt = none ↔
      ∀ sel ∈ findAll .select stmt,
        (select_table_names sel).dedup.length ≤ v.max_join_tables) := by
  have hiff : check_join_limit v stmt = none ↔
      ∀ sel ∈ findAll .select stmt,
        (select_table_names sel).dedup.length ≤ v.max_join_tables := by
    unfold check_join_limit
    rw [List.findSome?_eq_none_iff]
    constructor
    · intro h sel hsel
      have hs := h sel hsel
      by_cases hl : (select_table_names sel).dedup.length > v.max_join_tables
      · simp only [if_pos hl] at hs
        exact absurd hs (by simp)
      · omega
    · intro h sel hsel
      simp only [if_neg (by simpa using h sel hsel : ¬ (select_table_names sel).dedup.length > v.max_join_tables)]
  refine ⟨?_, hiff⟩
  intro h hk sel hsel
  have hvs := validate_or_raise_ok_stmt v s stmt hp h
  obtain ⟨main, hm, -, -, -, -, -, -, hjoin⟩ := validate_statement_ok_checks v stmt hk hvs
  exact hiff.mp hjoin sel hsel

def simple_select_input : SqlInput := ⟨"SELECT x FROM a", .ok [some simple_select_ast]⟩

/-- Witness for C4: the acceptance direction applied to the concrete
accepted `SELECT x FROM a`, specialised to its one SELECT node. -/
theorem c4_join_limit_counts_subtree_tables_witness :
    (select_table_names simple_select_ast).dedup.length ≤
      default_validator.max_join_tables :=
  (c4_join_limit_counts_subtree_tables default_validator simple_select_input
      simple_select_ast rfl).1 (by decide) (by decide) simple_select_ast
    (List.Mem.head _)

/-- A validator allowing EXPLAIN (`allow_explain = true` in the
security config). -/
def explain_validator : SQLValidator :=
  SQLValidator.init ⟨[], [], [], true, [], 3⟩ [] [] false

/-- C5: a single EXPLAIN command (sqlglot parses it as `exp.Command`
with `this = "EXPLAIN"` and the rest of the text kept as an uninspected
raw string) is accepted unconditionally when `allow_explain` is true —
no check ever looks at the trailing text, which may be anything,
including `DELETE FROM t` — and rejected with "EXPLAIN statements are
not allowed" when `allow_explain` is false. -/
theorem c5_explain_handling (v : SQLValidator) (text nm rest : String)
    (ht : ¬ stripStr text = "") (hnm : toUpperStr nm = "EXPLAIN") :
    (v.allow_explain = true →
      validate_or_raise v ⟨text, .ok [some (.node .command nm rest [])]⟩ = .ok ()) ∧
    (v.allow_explain = false →
      validate_or_raise v ⟨text, .ok [some (.node .command nm rest [])]⟩ =
        .error (.securityErr "EXPLAIN statements are not allowed")) := by
  constructor <;> intro ha <;>
    simp [validate_or_raise, validate_statement, ht, Exp.kind, Exp.name, hnm, ha]

/-- Witness for C5: `EXPLAIN DELETE FROM t` is accepted by the
EXPLAIN-allowing validator and rejected by the default one. -/
theorem c5_explain_handling_witness :
    validate_or_raise explain_validator
      ⟨"EXPLAIN DELETE FROM t", .ok [some (.node .command "EXPLAIN" "DELETE FROM t" [])]⟩ =
      .ok () ∧
    validate_or_raise default_validator
      ⟨"EXPLAIN DELETE FROM t", .ok [some (.node .command "EXPLAIN" "DELETE FROM t" [])]⟩ =
      .error (.securityErr "EXPLAIN statements are not allowed") :=
  ⟨(c5_explain_handling explain_validator "EXPLAIN DELETE FROM t" "EXPLAIN"
      "DELETE FROM t" (by decide) (by decide)).1 rfl,
   (c5_explain_handling default_validator "EXPLAIN DELETE FROM t" "EXPLAIN"
      "DELETE FROM t" (by decide) (by decide)).2 rfl⟩

/-- C10: `validate` is exactly the `(ok, message)` view of
`validate_or_raise` — it answers `(true, none)` precisely on acceptance
and `(false, str(e))` when `validate_or_raise` raises either of its two
declared exception classes; being a total function of the same input it
raises nothing itself. -/
theorem c10_validate_refines_validate_or_raise (v : SQLValidator) (s : SqlInput) :
    (validate v s = (true, none) ↔ validate_or_raise v s = .ok ()) ∧
    (∀ e : VError, validate_or_raise v s = .error e →
      validate v s = (false, some e.msg)) := by
  rcases h : validate_or_raise v s with e | u
  · constructor
    · unfold validate
      rw [h]
      simp
    · intro e' he'
      injection he' with h2
      unfold validate
      rw [h, h2]
  · constructor
    · cases u
      unfold validate
      rw [h]
      simp
    · intro e' he'
      exact absurd he' (by simp)

/-- Witness for C10: the empty input, on which `validate_or_raise`
raises the parse error "SQL query cannot be empty". -/
theorem c10_validate_refines_validate_or_raise_witness :
    validate default_validator ⟨"", .ok []⟩ =
      (false, some "SQL query cannot be empty") :=
  (c10_validate_refines_validate_or_raise default_validator ⟨"", .ok []⟩).2
    (VError.parseErr "SQL query cannot be empty") (by decide)

/-! ### Claims about the retry policy -/

/-- One step of the retry loop when more attempts remain and the
current invocation raises a retriable exception: sleep and recurse. -/
theorem retryLoop_cons_retriable {α : Type} (config : RetryConfig)
    (f : Nat → Except Exc α) (a : Nat) (rest : List Nat) (hrest : rest ≠ [])
    (e : Exc) (he : f a = .error e) (hr : e.cls ∈ config.retriable_exceptions) :
    retryLoop config f (a :: rest) =
      ⟨(retryLoop config f rest).result, (retryLoop config f rest).attempts + 1,
        config.calculate_delay a :: (retryLoop config f rest).delays⟩ := by
  rw [retryLoop, he]
  simp [hr, hrest]

/-- If every scheduled invocation raises a retriable exception, the
retry loop consumes the whole (non-empty) schedule and raises
`RetryExhausted` carrying the final attempt's exception. -/
theorem retryLoop_exhausts {α : Type} (config : RetryConfig) (f : Nat → Except Exc α)
    (l : List Nat) (hne : l ≠ [])
    (hall : ∀ i ∈ l, ∃ e, f i = .error e ∧ e.cls ∈ config.retriable_exceptions) :
    ∃ (eLast : Exc) (ds : List ℚ), f (l.getLast hne) = .error eLast ∧
      retryLoop config f l =
        ⟨.exhausted config.max_attempts eLast, l.length, ds⟩ := by
  induction l with
  | nil => exact absurd rfl hne
  | cons a t ih =>
    obtain ⟨e, he, hr⟩ := hall a (by simp)
    cases t with
    | nil =>
      refine ⟨e, [], he, ?_⟩
      simp [retryLoop, he, hr]
    | cons b t' =>
      obtain ⟨eL, ds, hfl, hloop⟩ :=
        ih (by simp) (fun i hi => hall i (by simp [hi]))
      refine ⟨eL, config.calculate_delay a :: ds, ?_, ?_⟩
      · rw [List.getLast_cons (by simp : (b :: t') ≠ [])]
        exact hfl
      · rw [retryLoop_cons_retriable config f a (b :: t') (by simp) e he hr, hloop]
        rfl

theorem getLast_range (n : Nat) (h : List.range n ≠ []) :
    (List.range n).getLast h = n - 1 := by
  have h1 : (List.range n).getLast? = some (n - 1) := by
    obtain ⟨k, rfl⟩ : ∃ k, n = k + 1 := by
      have h0 : n ≠ 0 := by simpa [List.range_eq_nil] using h
      exact ⟨n - 1, by omega⟩
    rw [List.range_succ, List.getLast?_concat, Nat.add_sub_cancel]
  have h2 : (List.range n).getLast? = some ((List.range n).getLast h) :=
    List.getLast?_eq_getLast _ h
  exact Option.some_injective _ (h2.symm.trans h1)

/-- C6: the retry wrapper with a positive attempt budget.  A
non-retriable exception from the first invocation is not caught by
`except config.retriable_exceptions` and propagates after exactly one
attempt (and no backoff sleep); when every invocation raises a
retriable exception, exactly `max_attempts` invocations are made and
the run ends in `RetryExhausted` whose `attempts` field is
`max_attempts` and whose `last_error` (also its chained cause) is the
exception of the final attempt. -/
theorem c6_with_retry_contract {α : Type} (config : RetryConfig)
    (f : Nat → Except Exc α) (hpos : 0 < config.max_attempts) :
    (∀ e : Exc, f 0 = .error e → e.cls ∉ config.retriable_exceptions →
      with_retry config f = ⟨.raised e, 1, []⟩) ∧
    ((∀ i, i < config.max_attempts →
        ∃ e, f i = .error e ∧ e.cls ∈ config.retriable_exceptions) →
      ∃ (eLast : Exc) (ds : List ℚ), f (config.max_attempts - 1) = .error eLast ∧
        with_retry config f =
          ⟨.exhausted config.max_attempts eLast, config.max_attempts, ds⟩) := by
  constructor
  · intro e he hnr
    unfold with_retry
    obtain ⟨k, hk⟩ : ∃ k, config.max_attempts = k + 1 :=
      ⟨config.max_attempts - 1, by omega⟩
    rw [hk, List.range_succ_eq_map]
    simp [retryLoop, he, hnr]
  · intro hall
    have hne : List.range config.max_attempts ≠ [] := by
      simp only [ne_eq, List.range_eq_nil]
      omega
    obtain ⟨eL, ds, hfl, hloop⟩ := retryLoop_exhausts config f
      (List.range config.max_attempts) hne (fun i hi => hall i (by simpa using hi))
    refine ⟨eL, ds, ?_, ?_⟩
    · rwa [getLast_range config.max_attempts hne] at hfl
    · unfold with_retry
      rw [hloop, List.length_range]

/-- max_attempts = 3, delays 1s doubling, capped at 10s, retrying only
`TimeoutError`. -/
def c6_config : RetryConfig := ⟨3, 1, 2, 10, ["TimeoutError"]⟩

/-- An operation that fails every time with a retriable timeout. -/
def c6_timeout_schedule : Nat → Except Exc Nat :=
  fun _ => .error ⟨"TimeoutError", "boom"⟩

/-- An operation that fails immediately with a non-retriable error. -/
def c6_value_error_schedule : Nat → Except Exc Nat :=
  fun _ => .error ⟨"ValueError", "bad"⟩

/-- Witness for C6: a non-retriable failure propagates after one
attempt; a persistent retriable failure exhausts all three attempts
with the backoff sleeps 1s and 2s in between. -/
theorem c6_with_retry_contract_witness :
    with_retry c6_config c6_value_error_schedule =
      ⟨.raised ⟨"ValueError", "bad"⟩, 1, []⟩ ∧
    with_retry c6_config c6_timeout_schedule =
      ⟨.exhausted 3 ⟨"TimeoutError", "boom"⟩, 3, [1, 2]⟩ :=
  ⟨(c6_with_retry_contract c6_config c6_value_error_schedule (by decide)).1
      ⟨"ValueError", "bad"⟩ rfl (by decide),
    by
      have hr : List.range c6_config.max_attempts = [0, 1, 2] := rfl
      unfold with_retry
      rw [hr]
      norm_num [retryLoop, c6_timeout_schedule, c6_config,
        RetryConfig.calculate_delay, min_def]
      simp⟩

/-- C8: for every validly constructed `RetryConfig`, the delay before
retry `i` is `min(initial_delay * backoff_factor ^ i, max_delay)`
(0-based), this sequence is monotonically non-decreasing, and once it
equals `max_delay` it stays there; and construction rejects
`max_attempts < 1`, `initial_delay < 0`, `backoff_factor < 1` and
`max_delay < initial_delay` with a `ValueError`. -/
theorem c8_retry_config_backoff :
    (∀ (max_attempts : Int) (initial_delay backoff_factor max_delay : ℚ)
        (retriable : List String) (config : RetryConfig),
      RetryConfig.init max_attempts initial_delay backoff_factor max_delay
          retriable = .ok config →
      (∀ i : Nat, config.calculate_delay i =
        min (config.initial_delay * config.backoff_factor ^ i) config.max_delay) ∧
      (∀ i : Nat, config.calculate_delay i ≤ config.calculate_delay (i + 1)) ∧
      (∀ i : Nat, config.calculate_delay i = config.max_delay →
        config.calculate_delay (i + 1) = config.max_delay)) ∧
    (∀ (max_attempts : Int) (initial_delay backoff_factor max_delay : ℚ)
        (retriable : List String),
      (max_attempts < 1 ∨ initial_delay < 0 ∨ backoff_factor < 1 ∨
        max_delay < initial_delay) →
      ∃ msg, RetryConfig.init max_attempts initial_delay backoff_factor max_delay
        retriable = .error msg) := by
  constructor
  · intro ma d bf M r config hok
    unfold RetryConfig.init at hok
    split_ifs at hok with h1 h2 h3 h4
    injection hok with hco
    subst hco
    have hd : (0 : ℚ) ≤ d := not_lt.mp h2
    have hbf : (1 : ℚ) ≤ bf := not_lt.mp h3
    have hstep : ∀ i : Nat, d * bf ^ i ≤ d * bf ^ (i + 1) := by
      intro i
      apply mul_le_mul_of_nonneg_left _ hd
      rw [pow_succ]
      exact le_mul_of_one_le_right (pow_nonneg (by linarith) i) hbf
    refine ⟨fun i => rfl, fun i => min_le_min (hstep i) le_rfl, fun i hi => ?_⟩
    have hM : M ≤ d * bf ^ i := min_eq_right_iff.mp hi
    exact min_eq_right (le_trans hM (hstep i))
  · intro ma d bf M r hbad
    unfold RetryConfig.init
    split_ifs with h1 h2 h3 h4
    · exact ⟨_, rfl⟩
    · exact ⟨_, rfl⟩
    · exact ⟨_, rfl⟩
    · exact ⟨_, rfl⟩
    · rcases hbad with h | h | h | h
      · omega
      · linarith
      · linarith
      · linarith

/-- Witness for C8: the config (3 attempts, 1s initial delay, factor 2,
10s cap) is validly constructed and its first backoff step is
non-decreasing, while `max_attempts = 0` is rejected. -/
theorem c8_retry_config_backoff_witness :
    (RetryConfig.mk 3 1 2 10 []).calculate_delay 0 ≤
      (RetryConfig.mk 3 1 2 10 []).calculate_delay 1 ∧
    ∃ msg, RetryConfig.init 0 1 2 10 [] = .error msg :=
  ⟨(c8_retry_config_backoff.1 3 1 2 10 [] (RetryConfig.mk 3 1 2 10 []) rfl).2.1 0,
    c8_retry_config_backoff.2 0 1 2 10 [] (Or.inl (by norm_num))⟩

/-! ### Claims about the orchestrator -/

/-- A body exception is answered by the matching handler response. -/
theorem execute_query_pg_error_response (env : OrchEnv) (req : QueryRequest)
    (e : PgErr) (h : execute_query_body env req = .error (.pg e)) :
    execute_query env req =
      { success := false, generated_sql := none, validation := none, data := none,
        error := some ⟨e.code, e.message, e.details⟩, confidence := 0,
        tokens_used := none } := by
  unfold execute_query
  rw [h]

/-- The catch-all `except Exception` handler answers INTERNAL_ERROR. -/
theorem execute_query_unexpected_error_response (env : OrchEnv) (req : QueryRequest)
    (ty msg : String)
    (h : execute_query_body env req = .error (.unexpected ty msg)) :
    execute_query env req =
      { success := false, generated_sql := none, validation := none, data := none,
        error := some ⟨"INTERNAL_ERROR", "Internal server error: " ++ msg,
          [("error_type", .s ty)]⟩,
        confidence := 0, tokens_used := none } := by
  unfold execute_query
  rw [h]

/-- A structural return of the body is the response. -/
theorem execute_query_ok_response (env : OrchEnv) (req : QueryRequest)
    (resp : QueryResponse) (h : execute_query_body env req = .ok resp) :
    execute_query env req = resp := by
  unfold execute_query
  rw [h]

/-- A resolution failure (under the length gate) surfaces as a body
exception. -/
theorem execute_query_body_resolve_error (env : OrchEnv) (req : QueryRequest)
    (e : PgErr) (hlen : ¬ req.question.length > env.max_question_length)
    (h : resolve_database env.pools req.database = .error e) :
    execute_query_body env req = .error (.pg e) := by
  unfold execute_query_body
  rw [if_neg hlen, h]

/-- Every error raised by `_resolve_database` carries the
DATABASE_NOT_FOUND code. -/
theorem resolve_database_error_code (pools : List String) (database : Option String)
    (e : PgErr) (h : resolve_database pools database = .error e) :
    e.code = "DATABASE_NOT_FOUND" := by
  unfold resolve_database at h
  rcases database with _ | db <;> dsimp only at h
  · rcases pools with _ | ⟨a, t⟩
    · dsimp only at h
      injection h with h'
      rw [← h']
    · rcases t with _ | ⟨b, t'⟩ <;> dsimp only at h
      · exact absurd h (by simp)
      · injection h with h'
        rw [← h']
  · by_cases hm : db ∈ pools
    · rw [if_pos hm] at h
      exact absurd h (by simp)
    · rw [if_neg hm] at h
      injection h with h'
      rw [← h']

/-- Every error raised during schema acquisition carries the
SCHEMA_LOAD_ERROR or DATABASE_ERROR code. -/
theorem get_schema_error_code (env : OrchEnv) (database_name : String)
    (oe : OrchErr) (h : get_schema env database_name = .error oe) :
    ∃ e, oe = OrchErr.pg e ∧
      (e.code = "SCHEMA_LOAD_ERROR" ∨ e.code = "DATABASE_ERROR") := by
  unfold get_schema at h
  by_cases hc : env.schema_cached database_name
  · rw [if_pos hc] at h
    exact absurd h (by simp)
  · rw [if_neg hc] at h
    by_cases hp : database_name ∈ env.pools
    · rw [if_pos hp] at h
      rcases hl : env.schema_load database_name with msg | u <;> rw [hl] at h <;>
        dsimp only at h
      · injection h with h'
        exact ⟨_, h'.symm, .inl rfl⟩
      · exact absurd h (by simp)
    · rw [if_neg hp] at h
      injection h with h'
      exact ⟨_, h'.symm, .inr rfl⟩

/-- The structural (non-exception) returns of `execute_query`: the
length-gate failure, the SQL_ONLY success, the low-confidence failure
or the full success. -/
theorem execute_query_body_ok_cases (env : OrchEnv) (req : QueryRequest)
    (resp : QueryResponse) (h : execute_query_body env req = .ok resp) :
    resp = question_too_long_response env req ∨
    (∃ sql, req.return_type = ReturnType.sql ∧ resp = sql_only_response sql) ∨
    (∃ sql, req.return_type ≠ ReturnType.sql ∧
      validate_results_safely env < env.min_confidence_score ∧
      resp = low_confidence_response env sql (validate_results_safely env)) ∨
    (∃ sql results, req.return_type ≠ ReturnType.sql ∧
      resp = full_success_response env sql results (validate_results_safely env)) := by
  unfold execute_query_body at h
  by_cases hlen : req.question.length > env.max_question_length
  · rw [if_pos hlen] at h
    injection h with h'
    exact .inl h'.symm
  · rw [if_neg hlen] at h
    rcases hr : resolve_database env.pools req.database with e | dbn <;>
      rw [hr] at h <;> dsimp only at h
    · exact absurd h (by simp)
    rcases hs : get_schema env dbn with e | u <;> rw [hs] at h <;> dsimp only at h
    · exact absurd h (by simp)
    rcases hg : env.gen_result with e | sql <;> rw [hg] at h <;> dsimp only at h
    · exact absurd h (by simp)
    by_cases hrt : req.return_type = ReturnType.sql
    · rw [if_pos hrt] at h
      injection h with h'
      exact .inr (.inl ⟨sql, hrt, h'.symm⟩)
    · rw [if_neg hrt] at h
      rcases he : env.exec_result with e | pr <;> rw [he] at h <;> dsimp only at h
      · exact absurd h (by simp)
      obtain ⟨results, total_count⟩ := pr
      dsimp only at h
      by_cases hcf : validate_results_safely env < env.min_confidence_score
      · rw [if_pos hcf] at h
        injection h with h'
        exact .inr (.inr (.inl ⟨sql, hrt, hcf, h'.symm⟩))
      · rw [if_neg hcf] at h
        injection h with h'
        exact .inr (.inr (.inr ⟨sql, results, hrt, h'.symm⟩))

/-- The exceptions that can escape the body of `execute_query`: a
resolution or schema-acquisition error with its fixed code, or an
outcome of the generate or execute collaborator. -/
theorem execute_query_body_error_cases (env : OrchEnv) (req : QueryRequest)
    (oe : OrchErr) (h : execute_query_body env req = .error oe) :
    (∃ e, oe = OrchErr.pg e ∧
      (e.code = "DATABASE_NOT_FOUND" ∨ e.code = "SCHEMA_LOAD_ERROR" ∨
        e.code = "DATABASE_ERROR")) ∨
    env.gen_result = .error oe ∨ env.exec_result = .error oe := by
  unfold execute_query_body at h
  by_cases hlen : req.question.length > env.max_question_length
  · rw [if_pos hlen] at h
    exact absurd h (by simp)
  · rw [if_neg hlen] at h
    rcases hr : resolve_database env.pools req.database with e | dbn <;>
      rw [hr] at h <;> dsimp only at h
    · injection h with h'
      exact .inl ⟨e, by rw [← h'], .inl (resolve_database_error_code _ _ e hr)⟩
    rcases hs : get_schema env dbn with e | u <;> rw [hs] at h <;> dsimp only at h
    · obtain ⟨e', he', hc⟩ := get_schema_error_code env dbn e hs
      injection h with h'
      exact .inl ⟨e', by rw [← h', he'], .inr hc⟩
    rcases hg : env.gen_result with e | sql <;> rw [hg] at h <;> dsimp only at h
    · injection h with h'
      exact .inr (.inl (congrArg Except.error h'))
    by_cases hrt : req.return_type = ReturnType.sql
    · rw [if_pos hrt] at h
      exact absurd h (by simp)
    · rw [if_neg hrt] at h
      rcases he : env.exec_result with e | pr <;> rw [he] at h <;> dsimp only at h
      · injection h with h'
        exact .inr (.inr (congrArg Except.error h'))
      obtain ⟨results, total_count⟩ := pr
      dsimp only at h
      by_cases hcf : validate_results_safely env < env.min_confidence_score
      · rw [if_pos hcf] at h
        exact absurd h (by simp)
      · rw [if_neg hcf] at h
        exact absurd h (by simp)

/-- C3: a named database absent from the pool registry, and an
unspecified database when several are registered, both fail with a
DATABASE_NOT_FOUND error whose details list the available database
names; an unspecified database with exactly one registered pool is
auto-selected.  (The code value DATABASE_NOT_FOUND is modelled from the
spec §7 taxonomy, `models/errors.py` being outside the sources.) -/
theorem c3_database_resolution (env : OrchEnv) (req : QueryRequest)
    (hlen : ¬ req.question.length > env.max_question_length) :
    (∀ db, req.database = some db → db ∉ env.pools →
      (execute_query env req).success = false ∧
      ∃ e, (execute_query env req).error = some e ∧
        e.code = "DATABASE_NOT_FOUND" ∧
        ("available_databases", DetVal.l env.pools) ∈ e.details) ∧
    (req.database = none → 1 < env.pools.length →
      (execute_query env req).success = false ∧
      ∃ e, (execute_query env req).error = some e ∧
        e.code = "DATABASE_NOT_FOUND" ∧
        ("available_databases", DetVal.l env.pools) ∈ e.details) ∧
    (∀ d, req.database = none → env.pools = [d] →
      resolve_database env.pools req.database = .ok d) := by
  refine ⟨?_, ?_, ?_⟩
  · intro db hdb hmem
    have hres : resolve_database env.pools req.database =
        .error ⟨"DATABASE_NOT_FOUND", "Database \x27" ++ db ++ "\x27 not found",
          [("requested_database", .s db), ("available_databases", .l env.pools)]⟩ := by
      unfold resolve_database
      rw [hdb]
      dsimp only
      rw [if_neg hmem]
    rw [execute_query_pg_error_response env req _
      (execute_query_body_resolve_error env req _ hlen hres)]
    exact ⟨rfl, _, rfl, rfl, by simp⟩
  · intro hdb hlen2
    have hres : ∃ msg, resolve_database env.pools req.database =
        .error ⟨"DATABASE_NOT_FOUND", msg,
          [("available_databases", .l env.pools)]⟩ := by
      unfold resolve_database
      rw [hdb]
      dsimp only
      rcases hp : env.pools with _ | ⟨a, t⟩
      · rw [hp] at hlen2
        exact absurd hlen2 (by simp)
      · rcases ht : t with _ | ⟨b, t'⟩
        · rw [hp, ht] at hlen2
          exact absurd hlen2 (by simp)
        · exact ⟨_, rfl⟩
    obtain ⟨msg, hres⟩ := hres
    rw [execute_query_pg_error_response env req _
      (execute_query_body_resolve_error env req _ hlen hres)]
    exact ⟨rfl, _, rfl, rfl, by simp⟩
  · intro d hdb hp
    unfold resolve_database
    rw [hdb]
    dsimp only
    rw [hp]

/-- Witness for C3: with pools a and b and no database named, the
response fails with DATABASE_NOT_FOUND listing both. -/
def c3_env : OrchEnv :=
  { pools := ["a", "b"], max_question_length := 5000, min_confidence_score := 70,
    validation_enabled := true, schema_cached := fun _ => true,
    schema_load := fun _ => .ok (), gen_result := .ok "SELECT 1",
    exec_result := .ok ([], 0), validator_result := .ok 90,
    execution_time_ms := 5 }

def c3_request : QueryRequest :=
  { question := "How many users?", database := none, return_type := ReturnType.result }

theorem c3_database_resolution_witness :
    (execute_query c3_env c3_request).success = false ∧
    ∃ e, (execute_query c3_env c3_request).error = some e ∧
      e.code = "DATABASE_NOT_FOUND" ∧
      ("available_databases", DetVal.l ["a", "b"]) ∈ e.details :=
  (c3_database_resolution c3_env c3_request (by decide)).2.1 rfl (by decide)

/-- `_validate_results_safely` never reports more than 100 when the
result validator itself stays within [0,100] (the bound on the
validator output is modelled from the spec §4.8, the result validator
being outside the sources). -/
theorem validate_results_safely_le (env : OrchEnv)
    (hv : ∀ c, env.validator_result = .ok c → c ≤ 100) :
    validate_results_safely env ≤ 100 := by
  unfold validate_results_safely
  by_cases he : env.validation_enabled = false
  · rw [if_pos he]
  · rw [if_neg he]
    rcases hr : env.validator_result with msg | c
    · exact le_refl 100
    · exact hv c hr

/-- C7: assuming the result validator reports within [0,100] (spec
§4.8; it is outside the sources), every response's confidence is at
most 100 (and at least 0, it being a natural number); and a successful
response to a SQL_ONLY request has no data, confidence exactly 100 and
the generated SQL populated. -/
theorem c7_confidence_bounds (env : OrchEnv) (req : QueryRequest)
    (hv : ∀ c, env.validator_result = .ok c → c ≤ 100) :
    (execute_query env req).confidence ≤ 100 ∧
    (req.return_type = ReturnType.sql → (execute_query env req).success = true →
      (execute_query env req).data = none ∧
      (execute_query env req).confidence = 100 ∧
      (execute_query env req).generated_sql.isSome = true) := by
  have hb := validate_results_safely_le env hv
  rcases hbody : execute_query_body env req with oe | resp
  · rcases oe with e | ⟨ty, msg⟩
    · rw [execute_query_pg_error_response env req e hbody]
      exact ⟨by simp, fun _ hs => absurd hs (by simp)⟩
    · rw [execute_query_unexpected_error_response env req ty msg hbody]
      exact ⟨by simp, fun _ hs => absurd hs (by simp)⟩
  · rw [execute_query_ok_response env req resp hbody]
    rcases execute_query_body_ok_cases env req resp hbody with hcase | hcase | hcase | hcase
    · subst hcase
      exact ⟨by simp [question_too_long_response],
        fun _ hs => absurd hs (by simp [question_too_long_response])⟩
    · obtain ⟨sql, hrt, hcase⟩ := hcase
      subst hcase
      exact ⟨by simp [sql_only_response], fun _ _ => by simp [sql_only_response]⟩
    · obtain ⟨sql, hrt, hcf, hcase⟩ := hcase
      subst hcase
      exact ⟨by simpa [low_confidence_response] using hb,
        fun hs _ => absurd hs hrt⟩
    · obtain ⟨sql, results, hrt, hcase⟩ := hcase
      subst hcase
      exact ⟨by simpa [full_success_response] using hb, fun hs _ => absurd hs hrt⟩

/-- Witness for C7: the SQL_ONLY request against a healthy single-pool
environment succeeds with no data, confidence 100 and the SQL
populated. -/
def c7_env : OrchEnv :=
  { pools := ["db"], max_question_length := 5000, min_confidence_score := 70,
    validation_enabled := true, schema_cached := fun _ => true,
    schema_load := fun _ => .ok (), gen_result := .ok "SELECT COUNT(*) FROM users",
    exec_result := .ok ([], 0), validator_result := .ok 90,
    execution_time_ms := 5 }

def c7_request : QueryRequest :=
  { question := "How many users?", database := none, return_type := ReturnType.sql }

theorem c7_confidence_bounds_witness :
    (execute_query c7_env c7_request).confidence ≤ 100 ∧
    ((execute_query c7_env c7_request).data = none ∧
      (execute_query c7_env c7_request).confidence = 100 ∧
      (execute_query c7_env c7_request).generated_sql.isSome = true) :=
  ⟨(c7_confidence_bounds c7_env c7_request (fun c hc => by
      injection hc with h
      omega)).1,
    (c7_confidence_bounds c7_env c7_request (fun c hc => by
      injection hc with h
      omega)).2 rfl (by decide)⟩

/-- C9: every failure response except the LOW_CONFIDENCE one — whether
produced by the exception handlers or by the early length gate — has
null generated_sql, validation, data and tokens_used and confidence 0,
even when SQL had been generated before the failing step; the
LOW_CONFIDENCE failure alone keeps the generated SQL, its validation
result and the measured confidence.  The hypotheses record (from the
spec §7 closed taxonomy, `models/errors.py` being outside the sources)
that no collaborator exception carries the literal code LOW_CONFIDENCE,
which is used only by the structural low-confidence return. -/
theorem c9_failure_response_fields (env : OrchEnv) (req : QueryRequest)
    (hgen : ∀ e, env.gen_result = .error (.pg e) → e.code ≠ "LOW_CONFIDENCE")
    (hexec : ∀ e, env.exec_result = .error (.pg e) → e.code ≠ "LOW_CONFIDENCE") :
    ∀ e, (execute_query env req).error = some e →
      (execute_query env req).success = false ∧
      (e.code ≠ "LOW_CONFIDENCE" →
        (execute_query env req).generated_sql = none ∧
        (execute_query env req).validation = none ∧
        (execute_query env req).data = none ∧
        (execute_query env req).tokens_used = none ∧
        (execute_query env req).confidence = 0) ∧
      (e.code = "LOW_CONFIDENCE" →
        (execute_query env req).generated_sql.isSome = true ∧
        (execute_query env req).validation = some successful_validation_result ∧
        (execute_query env req).data = none ∧
        (execute_query env req).confidence = validate_results_safely env) := by
  intro e he
  rcases hbody : execute_query_body env req with oe | resp
  · rcases oe with e' | ⟨ty, msg⟩
    · rw [execute_query_pg_error_response env req e' hbody] at he ⊢
      refine ⟨rfl, fun _ => ⟨rfl, rfl, rfl, rfl, rfl⟩, fun hlc => ?_⟩
      simp only [Option.some.injEq] at he
      rw [← he] at hlc
      simp only at hlc
      rcases execute_query_body_error_cases env req _ hbody with
        ⟨e0, he0, hcode⟩ | hg | hx
      · injection he0 with he0'
        rw [← he0'] at hcode
        rcases hcode with hc | hc | hc <;> rw [hc] at hlc <;> exact absurd hlc (by decide)
      · exact absurd hlc (hgen e' hg)
      · exact absurd hlc (hexec e' hx)
    · rw [execute_query_unexpected_error_response env req ty msg hbody] at he ⊢
      refine ⟨rfl, fun _ => ⟨rfl, rfl, rfl, rfl, rfl⟩, fun hlc => ?_⟩
      simp only [Option.some.injEq] at he
      rw [← he] at hlc
      simp only at hlc
      exact absurd hlc (by decide)
  · rw [execute_query_ok_response env req resp hbody] at he ⊢
    rcases execute_query_body_ok_cases env req resp hbody with hcase | hcase | hcase | hcase
    · subst hcase
      refine ⟨rfl, fun _ => ⟨rfl, rfl, rfl, rfl, rfl⟩, fun hlc => ?_⟩
      simp only [question_too_long_response, Option.some.injEq] at he
      rw [← he] at hlc
      simp only at hlc
      exact absurd hlc (by decide)
    · obtain ⟨sql, hrt, hcase⟩ := hcase
      subst hcase
      exact absurd he (by simp [sql_only_response])
    · obtain ⟨sql, hrt, hcf, hcase⟩ := hcase
      subst hcase
      refine ⟨rfl, fun hne => ?_, fun _ => ⟨rfl, rfl, rfl, rfl⟩⟩
      simp only [low_confidence_response, Option.some.injEq] at he
      rw [← he] at hne
      exact absurd rfl hne
    · obtain ⟨sql, results, hrt, hcase⟩ := hcase
      subst hcase
      exact absurd he (by simp [full_success_response])

/-- Environment for the C9 witness: SQL generation succeeds but
execution fails with a DATABASE_ERROR, on a RESULT request. -/
def c9_env : OrchEnv :=
  { pools := ["db"], max_question_length := 5000, min_confidence_score := 70,
    validation_enabled := true, schema_cached := fun _ => true,
    schema_load := fun _ => .ok (),
    gen_result := .ok "SELECT COUNT(*) FROM users",
    exec_result := .error (.pg ⟨"DATABASE_ERROR",
      "Database execution failed after 3 attempts", []⟩),
    validator_result := .ok 90, execution_time_ms := 5 }

def c9_request : QueryRequest :=
  { question := "How many users?", database := none, return_type := ReturnType.result }

/-- Witness for C9: the DATABASE_ERROR failure drops the already
generated SQL and carries all-null payload fields with confidence 0. -/
theorem c9_failure_response_fields_witness :
    (execute_query c9_env c9_request).success = false ∧
    (execute_query c9_env c9_request).generated_sql = none ∧
    (execute_query c9_env c9_request).validation = none ∧
    (execute_query c9_env c9_request).data = none ∧
    (execute_query c9_env c9_request).tokens_used = none ∧
    (execute_query c9_env c9_request).confidence = 0 :=
  have h := c9_failure_response_fields c9_env c9_request
    (fun e hg => by simp [c9_env] at hg)
    (fun e hx => by
      injection hx with h'
      injection h' with h''
      rw [← h'']
      decide)
    ⟨"DATABASE_ERROR", "Database execution failed after 3 attempts", []⟩ (by decide)
  ⟨h.1, (h.2.1 (by decide)).1, (h.2.1 (by decide)).2.1, (h.2.1 (by decide)).2.2.1,
    (h.2.1 (by decide)).2.2.2.1, (h.2.1 (by decide)).2.2.2.2⟩

end PgMcp
